import Mathlib

/-!
Shallow embedding of the terrainbento boundary-condition handlers
(`SingleNodeBaselevelHandler` and `ClosedNodeBaselevelHandler`) and proofs
about their behaviour.  Machine floats are modelled by rationals; numpy
arrays by lists of rationals; the landlab grid by its per-node status
codes plus the `at_node` field dictionary; the filesystem by a partial map
from paths to the table `np.loadtxt` would return.  Python exceptions are
modelled explicitly: a constructor returns `Except PyErr _`, and a step
returns the error (if any) together with the state as it stands when the
exception propagates (partial mutations kept, later ones skipped).
-/

namespace Terrainbento

/-- Python exception kinds raised by the embedded code paths. -/
inductive PyErr where
  | valueError
  | keyError
  | indexError
  | nameError
  | unboundLocalError
  | typeError
deriving DecidableEq, Repr

def topoName : String := "topographic__elevation"

def bedrockName : String := "bedrock__elevation"

/-- The landlab grid as the handlers see it: per-node boundary status codes
(0 = core node) and the `at_node` field dictionary. -/
structure Grid where
  status_at_node : List ℕ
  at_node : List (String × List ℚ)
deriving DecidableEq, Repr

/-- Dictionary lookup in the `at_node` field map. -/
def lookupF (name : String) : List (String × List ℚ) → Option (List ℚ)
  | [] => none
  | (k, v) :: rest => if k = name then some v else lookupF name rest

/-- Dictionary write (replace the value stored under an existing key). -/
def setAssoc (name : String) (arr : List ℚ) :
    List (String × List ℚ) → List (String × List ℚ)
  | [] => [(name, arr)]
  | (k, v) :: rest =>
      if k = name then (k, arr) :: rest else (k, v) :: setAssoc name arr rest

def Grid.setF (g : Grid) (name : String) (arr : List ℚ) : Grid :=
  { g with at_node := setAssoc name arr g.at_node }

/-- `name in grid.at_node`. -/
def Grid.hasF (g : Grid) (name : String) : Bool :=
  (lookupF name g.at_node).isSome

/-- Value of the topographic elevation field at node `i` (0 outside). -/
def zAt (g : Grid) (i : ℕ) : ℚ :=
  ((lookupF topoName g.at_node).getD []).getD i 0

/-- Value of the bedrock elevation field at node `i` (0 outside). -/
def bAt (g : Grid) (i : ℕ) : ℚ :=
  ((lookupF bedrockName g.at_node).getD []).getD i 0

/-- `scipy.interpolate.interp1d` over sample points `(time, value)` with
strictly increasing times: piecewise-linear inside the sampled range,
`none` (a raised `ValueError`) outside it. -/
def interpEval : List (ℚ × ℚ) → ℚ → Option ℚ
  | [], _ => none
  | [(t0, v0)], t => if t = t0 then some v0 else none
  | (t0, v0) :: (t1, v1) :: rest, t =>
      if t < t0 then none
      else if t ≤ t1 then some (v0 + (v1 - v0) * (t - t0) / (t1 - t0))
      else interpEval ((t1, v1) :: rest) t

/-- State of `SingleNodeBaselevelHandler`: exactly one of `lowering_rate`
and `outlet_elevation_obj` is set by a successful constructor. -/
structure SingleNodeBaselevelHandler where
  model_time : ℚ
  outlet_node : ℕ
  lowering_rate : Option ℚ
  outlet_elevation_obj : Option (List (ℚ × ℚ))
deriving DecidableEq, Repr

/-- `SingleNodeBaselevelHandler.__init__`.  `fs` is the filesystem: it maps
a path to the `(time, elevation_change)` table `np.loadtxt` would read, or
to `none` when `os.path.exists` is false.  Mirrors the source order: the
`topographic__elevation` lookup, the neither-given check, the file branch
(existence check, load, optional scaling needing `elev_change[0]` and
`elev_change[-1]`, `interp1d` needing at least two samples), the rate
branch, and the both-given error. -/
def SingleNodeBaselevelHandler.init (fs : String → Option (List (ℚ × ℚ)))
    (grid : Grid) (outlet_node : ℕ) (lowering_rate : Option ℚ)
    (lowering_file_path : Option String) (model_end_elevation : Option ℚ) :
    Except PyErr SingleNodeBaselevelHandler :=
  match lookupF topoName grid.at_node with
  | none => .error .keyError
  | some z =>
    match lowering_rate, lowering_file_path with
    | none, none => .error .valueError
    | none, some p =>
      match fs p with
      | none => .error .valueError
      | some table =>
        if outlet_node < z.length then
          let model_start_elevation := z.getD outlet_node 0
          let time := table.map (fun s => s.1)
          let elev_change := table.map (fun s => s.2)
          match model_end_elevation with
          | none =>
            if table.length < 2 then .error .valueError
            else
              .ok ⟨0, outlet_node, none,
                some (time.zip (elev_change.map
                  (fun c => 1 * c + model_start_elevation)))⟩
          | some e =>
            if table = [] then .error .indexError
            else
              let scaling_factor :=
                |model_start_elevation - e| /
                  |elev_change.getD 0 0 - elev_change.getD (elev_change.length - 1) 0|
              if table.length < 2 then .error .valueError
              else
                .ok ⟨0, outlet_node, none,
                  some (time.zip (elev_change.map
                    (fun c => scaling_factor * c + model_start_elevation)))⟩
        else .error .indexError
    | some r, none => .ok ⟨0, outlet_node, some r, none⟩
    | some _, some _ => .error .valueError

/-- `SingleNodeBaselevelHandler.run_one_step(dt)`.  Returns the raised
exception (if any), the handler state, and the grid, as they stand when
the call returns or the exception propagates.  Faithful ordering: in
history mode `topo_change` is computed from the current elevation and the
interpolant evaluated at the PRE-increment `model_time`; bedrock (when the
field exists) receives the delta before topography; `model_time += dt`
happens last, so a raising call leaves `model_time` unchanged. -/
def SingleNodeBaselevelHandler.run_one_step (h : SingleNodeBaselevelHandler)
    (g : Grid) (dt : ℚ) : Option PyErr × SingleNodeBaselevelHandler × Grid :=
  match lookupF topoName g.at_node with
  | none => (some .keyError, h, g)
  | some z =>
    match h.outlet_elevation_obj with
    | none =>
      match h.lowering_rate with
      | none => (some .typeError, h, g)
      | some r =>
        if h.outlet_node < z.length then
          let g1 := g.setF topoName
            (z.set h.outlet_node (z.getD h.outlet_node 0 + r * dt))
          match lookupF bedrockName g1.at_node with
          | none => (none, { h with model_time := h.model_time + dt }, g1)
          | some b =>
            if h.outlet_node < b.length then
              (none, { h with model_time := h.model_time + dt },
                g1.setF bedrockName
                  (b.set h.outlet_node (b.getD h.outlet_node 0 + r * dt)))
            else (some .indexError, h, g1)
        else (some .indexError, h, g)
    | some pts =>
      if h.outlet_node < z.length then
        match interpEval pts h.model_time with
        | none => (some .valueError, h, g)
        | some fv =>
          let topo_change := z.getD h.outlet_node 0 - fv
          match lookupF bedrockName g.at_node with
          | none =>
            (none, { h with model_time := h.model_time + dt },
              g.setF topoName
                (z.set h.outlet_node (z.getD h.outlet_node 0 - topo_change)))
          | some b =>
            if h.outlet_node < b.length then
              let g1 := g.setF bedrockName
                (b.set h.outlet_node (b.getD h.outlet_node 0 - topo_change))
              (none, { h with model_time := h.model_time + dt },
                g1.setF topoName
                  (z.set h.outlet_node (z.getD h.outlet_node 0 - topo_change)))
            else (some .indexError, h, g)
      else (some .indexError, h, g)

/-- Arithmetic mean of the entries of `z` selected by the boolean mask
(`np.mean(self.z[self.nodes_to_lower])`). -/
def meanMasked (z : List ℚ) (mask : List Bool) : ℚ :=
  let sel := ((z.zip mask).filter (fun s => s.2)).map (fun s => s.1)
  sel.sum / sel.length

/-- State of `ClosedNodeBaselevelHandler`. -/
structure ClosedNodeBaselevelHandler where
  model_time : ℚ
  modify_closed_nodes : Bool
  nodes_to_lower : List Bool
  prefactor : ℚ
  lowering_rate : Option ℚ
  outlet_elevation_obj : Option (List (ℚ × ℚ))
deriving DecidableEq, Repr

/-- `ClosedNodeBaselevelHandler.__init__`.  Mirrors the source order: the
`topographic__elevation` lookup, mask and prefactor from the status
snapshot, the neither-given check, the file branch, the rate branch, the
both-given error.  The file branch reproduces the source defect: with
`model_end_elevation` unset, `scaling_factor` is set to 1 but the line
`outlet_elevation = scaling_factor*elev_change + model_start_elevation`
then reads `model_start_elevation`, which is only assigned in the other
arm, so Python raises `UnboundLocalError`. -/
def ClosedNodeBaselevelHandler.init (fs : String → Option (List (ℚ × ℚ)))
    (grid : Grid) (modify_closed_nodes : Bool) (lowering_rate : Option ℚ)
    (lowering_file_path : Option String) (model_end_elevation : Option ℚ) :
    Except PyErr ClosedNodeBaselevelHandler :=
  match lookupF topoName grid.at_node with
  | none => .error .keyError
  | some z =>
    let nodes_to_lower : List Bool :=
      if modify_closed_nodes then
        grid.status_at_node.map (fun s => decide (s ≠ 0))
      else
        grid.status_at_node.map (fun s => decide (s = 0))
    let prefactor : ℚ := if modify_closed_nodes then 1 else -1
    match lowering_rate, lowering_file_path with
    | none, none => .error .valueError
    | none, some p =>
      match fs p with
      | none => .error .valueError
      | some table =>
        let time := table.map (fun s => s.1)
        let elev_change := table.map (fun s => s.2)
        match model_end_elevation with
        | none => .error .unboundLocalError
        | some e =>
          if table = [] then .error .indexError
          else
            let model_start_elevation := meanMasked z nodes_to_lower
            let scaling_factor :=
              |model_start_elevation - e| /
                |elev_change.getD 0 0 - elev_change.getD (elev_change.length - 1) 0|
            if table.length < 2 then .error .valueError
            else
              .ok ⟨0, modify_closed_nodes, nodes_to_lower, prefactor, none,
                some (time.zip (elev_change.map
                  (fun c => scaling_factor * c + model_start_elevation)))⟩
    | some r, none =>
      .ok ⟨0, modify_closed_nodes, nodes_to_lower, prefactor, some r, none⟩
    | some _, some _ => .error .valueError

/-- Elementwise history update `arr[mask] -= prefactor * (z[mask] - fv)`:
each triple is `(arr entry, matching topography entry, mask entry)`. -/
def maskedHistUpdate (prefactor fv : ℚ) : List (ℚ × ℚ × Bool) → List ℚ :=
  List.map (fun s => if s.2.2 then s.1 - prefactor * (s.2.1 - fv) else s.1)

/-- `ClosedNodeBaselevelHandler.run_one_step(dt)`.  `model_time += dt`
happens FIRST (so even a raising call has advanced the clock).  The
constant-rate branch reproduces the source defect: the line
`self.z[nodes_to_lower] += ...` references the bare name
`nodes_to_lower`, which is undefined, so Python raises `NameError` before
touching any field.  The history branch evaluates the interpolant at the
POST-increment `model_time`, updates bedrock (when the field exists)
before topography, and applies `prefactor * (z - f(t))` to the masked
nodes of both fields. -/
def ClosedNodeBaselevelHandler.run_one_step (h : ClosedNodeBaselevelHandler)
    (g : Grid) (dt : ℚ) : Option PyErr × ClosedNodeBaselevelHandler × Grid :=
  let h1 : ClosedNodeBaselevelHandler :=
    { h with model_time := h.model_time + dt }
  match h.outlet_elevation_obj with
  | none => (some .nameError, h1, g)
  | some pts =>
    match lookupF topoName g.at_node with
    | none => (some .keyError, h1, g)
    | some z =>
      if z.length = h.nodes_to_lower.length then
        match interpEval pts h1.model_time with
        | none => (some .valueError, h1, g)
        | some fv =>
          match lookupF bedrockName g.at_node with
          | none =>
            (none, h1, g.setF topoName
              (maskedHistUpdate h.prefactor fv (z.zip (z.zip h.nodes_to_lower))))
          | some b =>
            if b.length = h.nodes_to_lower.length then
              let g1 := g.setF bedrockName
                (maskedHistUpdate h.prefactor fv (b.zip (z.zip h.nodes_to_lower)))
              (none, h1, g1.setF topoName
                (maskedHistUpdate h.prefactor fv (z.zip (z.zip h.nodes_to_lower))))
            else (some .indexError, h1, g)
      else (some .indexError, h1, g)

/-! ### Basic lemmas about the field dictionary and list updates -/

lemma lookupF_setAssoc_self (name : String) (arr : List ℚ) :
    ∀ l : List (String × List ℚ),
      lookupF name (setAssoc name arr l) = some arr
  | [] => by simp [setAssoc, lookupF]
  | (k, v) :: rest => by
      by_cases hk : k = name
      · simp [setAssoc, lookupF, hk]
      · simp [setAssoc, lookupF, hk, lookupF_setAssoc_self name arr rest]

lemma lookupF_setAssoc_ne (m name : String) (arr : List ℚ) (h : m ≠ name) :
    ∀ l : List (String × List ℚ),
      lookupF m (setAssoc name arr l) = lookupF m l
  | [] => by
      have hnm : ¬ name = m := fun hh => h hh.symm
      simp [setAssoc, lookupF, hnm]
  | (k, v) :: rest => by
      have hnm : ¬ name = m := fun hh => h hh.symm
      by_cases hk : k = name
      · simp [setAssoc, lookupF, hk, hnm]
      · by_cases hm : k = m
        · simp [setAssoc, lookupF, hk, hm, h]
        · simp [setAssoc, lookupF, hk, hm,
            lookupF_setAssoc_ne m name arr h rest]

lemma lookupF_setF_self (g : Grid) (name : String) (arr : List ℚ) :
    lookupF name (g.setF name arr).at_node = some arr :=
  lookupF_setAssoc_self name arr g.at_node

lemma lookupF_setF_ne (g : Grid) (m name : String) (arr : List ℚ)
    (h : m ≠ name) :
    lookupF m (g.setF name arr).at_node = lookupF m g.at_node :=
  lookupF_setAssoc_ne m name arr h g.at_node

lemma getD_set_self (l : List ℚ) (i : ℕ) (v : ℚ) (h : i < l.length) :
    (l.set i v).getD i 0 = v := by
  rw [List.getD_eq_getD_get?, List.get?_eq_getElem?, List.getElem?_set_self h]
  rfl

lemma getD_set_ne (l : List ℚ) (i j : ℕ) (v : ℚ) (h : i ≠ j) :
    (l.set i v).getD j 0 = l.getD j 0 := by
  rw [List.getD_eq_getD_get?, List.get?_eq_getElem?, List.getElem?_set_ne h,
    ← List.get?_eq_getElem?, ← List.getD_eq_getD_get?]

/-! ### Concrete inputs used by the claim theorems and witnesses -/

/-- Filesystem with no readable files. -/
def fsNone : String → Option (List (ℚ × ℚ)) := fun _ => none

/-- Filesystem holding one history file "f": times 0 and 20, cumulative
changes 0 and -2. -/
def fsA : String → Option (List (ℚ × ℚ)) :=
  fun p => if p = "f" then some [(0, 0), (20, -2)] else none

/-- Filesystem holding one history file "f": times 0 and 10, cumulative
changes 0 and -1. -/
def fsB : String → Option (List (ℚ × ℚ)) :=
  fun p => if p = "f" then some [(0, 0), (10, -1)] else none

/-- A 5×5 grid, all nodes core, elevation all zero. -/
def g0 : Grid := ⟨List.replicate 25 0, [(topoName, List.replicate 25 0)]⟩

/-- Status codes of a 5×5 raster grid whose perimeter nodes are all closed
(status 4) and whose interior nodes are core (status 0). -/
def statusC1 : List ℕ :=
  [4, 4, 4, 4, 4,
   4, 0, 0, 0, 4,
   4, 0, 0, 0, 4,
   4, 0, 0, 0, 4,
   4, 4, 4, 4, 4]

/-- The 5×5 all-perimeter-closed grid with elevation all zero. -/
def gC1 : Grid := ⟨statusC1, [(topoName, List.replicate 25 0)]⟩

/-- Handler the multi-node constructor builds on `gC1` with
`modify_closed_nodes = True`, `lowering_rate = -0.1`. -/
def hC1 : ClosedNodeBaselevelHandler :=
  ⟨0, true, statusC1.map (fun s => decide (s ≠ 0)), 1, some (-1/10), none⟩

/-- Handler the multi-node constructor builds on `gC1` with
`modify_closed_nodes = False`, `lowering_rate = -0.1`. -/
def hC1b : ClosedNodeBaselevelHandler :=
  ⟨0, false, statusC1.map (fun s => decide (s = 0)), -1, some (-1/10), none⟩

/-- Single-node grid: one core node at elevation 0. -/
def g4 : Grid := ⟨[0], [(topoName, [0])]⟩

/-- Handler the single-node constructor builds on `g4` from file "f" of
`fsA` with no end elevation: scaling 1, start elevation 0. -/
def h4 : SingleNodeBaselevelHandler := ⟨0, 0, none, some [(0, 0), (20, -2)]⟩

/-- Handler the single-node constructor builds on `g4` from file "f" of
`fsB` with `model_end_elevation = -1`: scaling 1, start elevation 0. -/
def h5 : SingleNodeBaselevelHandler := ⟨0, 0, none, some [(0, 0), (10, -1)]⟩

/-! ### Claim theorems -/

/-- C1 (code bug evaluation): on the 5×5 grid whose perimeter nodes are all
closed, the multi-node controller with `lowering_rate = -0.1` is built
fine, but `run_one_step(10.0)` raises `NameError` — the constant-rate
branch reads the bare, undefined name `nodes_to_lower` — and leaves every
elevation unchanged (only `model_time` has already advanced), for both
`modify_closed_nodes = True` and `False`.  The claimed lowering/raising by
1.0 (also asserted by the source file's own doctest) never happens. -/
theorem C1_rate_step_raises_nameError :
    ClosedNodeBaselevelHandler.init fsNone gC1 true (some (-1/10)) none none
      = .ok hC1 ∧
    ClosedNodeBaselevelHandler.run_one_step hC1 gC1 10 =
      (some PyErr.nameError, { hC1 with model_time := 10 }, gC1) ∧
    ClosedNodeBaselevelHandler.init fsNone gC1 false (some (-1/10)) none none
      = .ok hC1b ∧
    ClosedNodeBaselevelHandler.run_one_step hC1b gC1 10 =
      (some PyErr.nameError, { hC1b with model_time := 10 }, gC1) := by
  refine ⟨?_, ?_, ?_, ?_⟩ <;>
    simp [ClosedNodeBaselevelHandler.init,
      ClosedNodeBaselevelHandler.run_one_step, fsNone, gC1, statusC1, hC1,
      hC1b, lookupF, topoName]

/-- C6 (code bug evaluation): constructing the multi-node controller with a
readable history file and `model_end_elevation` unset raises
`UnboundLocalError` instead of succeeding: the `outlet_elevation` line
reads `model_start_elevation`, which is only assigned on the
`model_end_elevation`-given arm. -/
theorem C6_init_raises_unboundLocal :
    ClosedNodeBaselevelHandler.init fsA gC1 true none (some "f") none =
      .error PyErr.unboundLocalError := by
  simp [ClosedNodeBaselevelHandler.init, fsA, gC1, statusC1, lookupF,
    topoName]

/-- C2: for either controller, supplying both `lowering_rate` and
`lowering_file_path` raises `ValueError`, and supplying neither raises
`ValueError`, at construction (the constructors never touch the elevation
fields: they return only a handler). -/
theorem C2_mutual_exclusion (fs : String → Option (List (ℚ × ℚ))) (g : Grid)
    (o : ℕ) (r : ℚ) (p : String) (e : Option ℚ) (m : Bool) (z : List ℚ)
    (hz : lookupF topoName g.at_node = some z) :
    SingleNodeBaselevelHandler.init fs g o (some r) (some p) e
      = .error .valueError ∧
    SingleNodeBaselevelHandler.init fs g o none none e = .error .valueError ∧
    ClosedNodeBaselevelHandler.init fs g m (some r) (some p) e
      = .error .valueError ∧
    ClosedNodeBaselevelHandler.init fs g m none none e = .error .valueError := by
  refine ⟨?_, ?_, ?_, ?_⟩ <;>
    simp [SingleNodeBaselevelHandler.init, ClosedNodeBaselevelHandler.init, hz]

/-- C2 witness at a concrete grid. -/
theorem C2_mutual_exclusion_witness :
    SingleNodeBaselevelHandler.init fsNone g0 0 (some (-1/10)) (some "f") none
      = .error .valueError ∧
    SingleNodeBaselevelHandler.init fsNone g0 0 none none none
      = .error .valueError ∧
    ClosedNodeBaselevelHandler.init fsNone g0 true (some (-1/10)) (some "f")
      none = .error .valueError ∧
    ClosedNodeBaselevelHandler.init fsNone g0 true none none none
      = .error .valueError :=
  C2_mutual_exclusion fsNone g0 0 (-1/10) "f" none true
    (List.replicate 25 0) (by decide)

/-- C7: for either controller, a `lowering_file_path` that does not resolve
to an existing file (with no `lowering_rate`) raises `ValueError` at
construction. -/
theorem C7_missing_file (fs : String → Option (List (ℚ × ℚ))) (g : Grid)
    (o : ℕ) (p : String) (e : Option ℚ) (m : Bool) (z : List ℚ)
    (hz : lookupF topoName g.at_node = some z) (hp : fs p = none) :
    SingleNodeBaselevelHandler.init fs g o none (some p) e
      = .error .valueError ∧
    ClosedNodeBaselevelHandler.init fs g m none (some p) e
      = .error .valueError := by
  constructor <;>
    simp [SingleNodeBaselevelHandler.init, ClosedNodeBaselevelHandler.init,
      hz, hp]

/-- C7 witness at a concrete grid and missing file. -/
theorem C7_missing_file_witness :
    SingleNodeBaselevelHandler.init fsNone g0 0 none (some "nofile") none
      = .error .valueError ∧
    ClosedNodeBaselevelHandler.init fsNone g0 true none (some "nofile") none
      = .error .valueError :=
  C7_missing_file fsNone g0 0 "nofile" none true (List.replicate 25 0)
    (by decide) rfl

/-- C4 counterexample: single-node history mode, history (0,0)-(20,-2),
start elevation 0.  One `run_one_step(10)` advances elapsed time to 10 but
leaves the outlet at 0, whereas the interpolant at the new elapsed time 10
is -1: the code computes the delta from the interpolant at the
pre-increment elapsed time, not at `t_before + dt` as claimed. -/
theorem C4_counterexample :
    SingleNodeBaselevelHandler.init fsA g4 0 none (some "f") none = .ok h4 ∧
    (SingleNodeBaselevelHandler.run_one_step h4 g4 10).1 = none ∧
    (SingleNodeBaselevelHandler.run_one_step h4 g4 10).2.1.model_time = 10 ∧
    zAt (SingleNodeBaselevelHandler.run_one_step h4 g4 10).2.2 0 = 0 ∧
    interpEval [(0, 0), (20, -2)] 10 = some (-1) ∧ (0 : ℚ) ≠ -1 := by
  refine ⟨?_, ?_, ?_, ?_, ?_, ?_⟩ <;>
    simp [SingleNodeBaselevelHandler.init,
      SingleNodeBaselevelHandler.run_one_step, fsA, g4, h4, interpEval, zAt,
      Grid.setF, setAssoc, lookupF, topoName, bedrockName]
  norm_num

/-- C5 counterexample: single-node history mode, history (0,0)-(10,-1),
start elevation 0, `model_end_elevation = -1`; the scaling factor is 1 as
the formula gives.  One `run_one_step(10)` advances elapsed time to the
history's final time 10, yet the outlet elevation is 0, not the claimed
end elevation -1: the last step's delta was evaluated at the pre-increment
time 0. -/
theorem C5_counterexample :
    SingleNodeBaselevelHandler.init fsB g4 0 none (some "f") (some (-1))
      = .ok h5 ∧
    (SingleNodeBaselevelHandler.run_one_step h5 g4 10).1 = none ∧
    (SingleNodeBaselevelHandler.run_one_step h5 g4 10).2.1.model_time = 10 ∧
    zAt (SingleNodeBaselevelHandler.run_one_step h5 g4 10).2.2 0 = 0 ∧
    (0 : ℚ) ≠ -1 := by
  refine ⟨?_, ?_, ?_, ?_, ?_⟩ <;>
    simp [SingleNodeBaselevelHandler.init,
      SingleNodeBaselevelHandler.run_one_step, fsB, g4, h5, interpEval, zAt,
      Grid.setF, setAssoc, lookupF, topoName, bedrockName]

lemma bedrock_ne_topo : bedrockName ≠ topoName := by decide

/-- Inversion of a successful single-node history-mode step: the clock
advances by `dt` and the outlet elevation lands on the interpolant
evaluated at the PRE-increment elapsed time. -/
lemma SN_hist_run_inv (h : SingleNodeBaselevelHandler) (g : Grid) (dt : ℚ)
    (pts : List (ℚ × ℚ)) (h' : SingleNodeBaselevelHandler) (g' : Grid)
    (hobj : h.outlet_elevation_obj = some pts)
    (hrun : h.run_one_step g dt = (none, h', g')) :
    h'.model_time = h.model_time + dt ∧
    interpEval pts h.model_time = some (zAt g' h.outlet_node) := by
  cases hz : lookupF topoName g.at_node with
  | none => simp [SingleNodeBaselevelHandler.run_one_step, hz] at hrun
  | some z =>
    simp only [SingleNodeBaselevelHandler.run_one_step, hz, hobj] at hrun
    by_cases ho : h.outlet_node < z.length
    · simp only [if_pos ho] at hrun
      cases hiv : interpEval pts h.model_time with
      | none => simp [hiv] at hrun
      | some fv =>
        simp only [hiv] at hrun
        cases hb : lookupF bedrockName g.at_node with
        | none =>
          simp only [hb] at hrun
          injection hrun with h1 h23
          injection h23 with hh hg
          subst hh; subst hg
          refine ⟨rfl, ?_⟩
          simp [hiv, zAt, lookupF_setF_self]
          rw [List.getElem?_set_self ho]
          rfl
        | some b =>
          by_cases hob : h.outlet_node < b.length
          · simp only [hb, if_pos hob] at hrun
            injection hrun with h1 h23
            injection h23 with hh hg
            subst hh; subst hg
            refine ⟨rfl, ?_⟩
            simp [hiv, zAt, lookupF_setF_self]
            rw [List.getElem?_set_self ho]
            rfl
          · simp [hb, if_neg hob] at hrun
    · simp [if_neg ho] at hrun

/-- C4 (amended): for the single-node controller in history mode with no
rescaling, each successful `run_one_step(dt)` from elapsed time `t_before`
applies `delta = current elevation − f(t_before)` — the PRE-increment
elapsed time, not `t_before + dt` — so after advancing to
`elapsed_time = t` the outlet elevation equals `interpolant(t − dt)`,
where the interpolant linearly interpolates the file values offset by the
initial elevation. -/
theorem C4_pre_increment_interpolation (h : SingleNodeBaselevelHandler)
    (g : Grid) (dt : ℚ) (pts : List (ℚ × ℚ))
    (h' : SingleNodeBaselevelHandler) (g' : Grid)
    (hobj : h.outlet_elevation_obj = some pts)
    (hrun : h.run_one_step g dt = (none, h', g')) :
    h'.model_time = h.model_time + dt ∧
    interpEval pts (h'.model_time - dt) = some (zAt g' h.outlet_node) := by
  obtain ⟨ht, hv⟩ := SN_hist_run_inv h g dt pts h' g' hobj hrun
  refine ⟨ht, ?_⟩
  rw [ht, add_sub_cancel_right]
  exact hv

/-- C4 witness: the amended statement at the concrete history
(0,0)-(20,-2), start elevation 0, one step of dt = 10. -/
theorem C4_pre_increment_interpolation_witness :
    (SingleNodeBaselevelHandler.mk 10 0 none
        (some [(0, 0), (20, -2)])).model_time = h4.model_time + 10 ∧
    interpEval [(0, 0), (20, -2)]
        ((SingleNodeBaselevelHandler.mk 10 0 none
          (some [(0, 0), (20, -2)])).model_time - 10)
      = some (zAt g4 h4.outlet_node) :=
  C4_pre_increment_interpolation h4 g4 10 [(0, 0), (20, -2)]
    ⟨10, 0, none, some [(0, 0), (20, -2)]⟩ g4 rfl
    (by simp [SingleNodeBaselevelHandler.run_one_step, h4, g4, interpEval,
      Grid.setF, setAssoc, lookupF, topoName, bedrockName])

/-- Characterisation of a constant-rate single-node step on a grid with no
bedrock field. -/
lemma SN_rate_step_nb (h : SingleNodeBaselevelHandler) (g : Grid) (dt : ℚ)
    (z : List ℚ) (r : ℚ)
    (hobj : h.outlet_elevation_obj = none) (hr : h.lowering_rate = some r)
    (hz : lookupF topoName g.at_node = some z) (ho : h.outlet_node < z.length)
    (hb : lookupF bedrockName g.at_node = none) :
    h.run_one_step g dt =
      (none, { h with model_time := h.model_time + dt },
        g.setF topoName
          (z.set h.outlet_node (z.getD h.outlet_node 0 + r * dt))) := by
  have hb1 : lookupF bedrockName
      (g.setF topoName
        (z.set h.outlet_node (z.getD h.outlet_node 0 + r * dt))).at_node
      = none :=
    (lookupF_setF_ne g bedrockName topoName _ bedrock_ne_topo).trans hb
  simp only [SingleNodeBaselevelHandler.run_one_step, hz, hobj, hr,
    if_pos ho, hb1]

/-- Characterisation of a constant-rate single-node step on a grid holding
a bedrock field of matching reach. -/
lemma SN_rate_step_wb (h : SingleNodeBaselevelHandler) (g : Grid) (dt : ℚ)
    (z b : List ℚ) (r : ℚ)
    (hobj : h.outlet_elevation_obj = none) (hr : h.lowering_rate = some r)
    (hz : lookupF topoName g.at_node = some z) (ho : h.outlet_node < z.length)
    (hb : lookupF bedrockName g.at_node = some b)
    (hob : h.outlet_node < b.length) :
    h.run_one_step g dt =
      (none, { h with model_time := h.model_time + dt },
        (g.setF topoName
          (z.set h.outlet_node (z.getD h.outlet_node 0 + r * dt))).setF
            bedrockName
              (b.set h.outlet_node (b.getD h.outlet_node 0 + r * dt))) := by
  have hb1 : lookupF bedrockName
      (g.setF topoName
        (z.set h.outlet_node (z.getD h.outlet_node 0 + r * dt))).at_node
      = some b :=
    (lookupF_setF_ne g bedrockName topoName _ bedrock_ne_topo).trans hb
  simp only [SingleNodeBaselevelHandler.run_one_step, hz, hobj, hr,
    if_pos ho, hb1, if_pos hob]

/-- `n` consecutive `run_one_step(dt)` calls of the single-node handler,
keeping the state as it stands even if a call raises. -/
def SNiter (dt : ℚ) : ℕ → SingleNodeBaselevelHandler × Grid →
    SingleNodeBaselevelHandler × Grid
  | 0, s => s
  | n + 1, s => SNiter dt n (s.1.run_one_step s.2 dt).2

/-- Invariant of iterated constant-rate steps, bedrock absent. -/
lemma SN_rate_iter_nb (o : ℕ) (r dt : ℚ) :
    ∀ (n : ℕ) (t0 : ℚ) (g : Grid) (z : List ℚ),
      lookupF topoName g.at_node = some z → o < z.length →
      lookupF bedrockName g.at_node = none →
      ∃ z2, lookupF topoName
          (SNiter dt n (⟨t0, o, some r, none⟩, g)).2.at_node = some z2 ∧
        z2.length = z.length ∧
        z2.getD o 0 = z.getD o 0 + r * (n * dt) ∧
        (SNiter dt n (⟨t0, o, some r, none⟩, g)).1
          = ⟨t0 + n * dt, o, some r, none⟩
  | 0, t0, g, z, hz, ho, hb => by
      refine ⟨z, hz, rfl, ?_, ?_⟩ <;> simp [SNiter]
  | n + 1, t0, g, z, hz, ho, hb => by
      have hstep := SN_rate_step_nb ⟨t0, o, some r, none⟩ g dt z r rfl rfl
        hz ho hb
      have hsnd := congrArg Prod.snd hstep
      have hrec : SNiter dt (n + 1) (⟨t0, o, some r, none⟩, g)
          = SNiter dt n ((SingleNodeBaselevelHandler.run_one_step
              ⟨t0, o, some r, none⟩ g dt).2) := rfl
      set z1 := z.set o (z.getD o 0 + r * dt) with hz1
      have hlen1 : z1.length = z.length := List.length_set z o _
      have hz1l : lookupF topoName (g.setF topoName z1).at_node = some z1 :=
        lookupF_setF_self g topoName z1
      have hb1 : lookupF bedrockName (g.setF topoName z1).at_node = none :=
        (lookupF_setF_ne g bedrockName topoName z1 bedrock_ne_topo).trans hb
      obtain ⟨z2, hz2, hlen2, hval2, hh2⟩ :=
        SN_rate_iter_nb o r dt n (t0 + dt) (g.setF topoName z1) z1 hz1l
          (hlen1 ▸ ho) hb1
      refine ⟨z2, ?_, ?_, ?_, ?_⟩
      · rw [hrec, hsnd]; exact hz2
      · exact hlen2.trans hlen1
      · rw [hval2, hz1, getD_set_self z o _ ho]
        push_cast
        ring
      · rw [hrec, hsnd,
          show (t0 : ℚ) + ((n + 1 : ℕ) : ℚ) * dt = t0 + dt + n * dt from by
            push_cast; ring]
        exact hh2

/-- Invariant of iterated constant-rate steps, bedrock present. -/
lemma SN_rate_iter_wb (o : ℕ) (r dt : ℚ) :
    ∀ (n : ℕ) (t0 : ℚ) (g : Grid) (z b : List ℚ),
      lookupF topoName g.at_node = some z → o < z.length →
      lookupF bedrockName g.at_node = some b → b.length = z.length →
      ∃ z2 b2, lookupF topoName
          (SNiter dt n (⟨t0, o, some r, none⟩, g)).2.at_node = some z2 ∧
        lookupF bedrockName
          (SNiter dt n (⟨t0, o, some r, none⟩, g)).2.at_node = some b2 ∧
        z2.length = z.length ∧ b2.length = b.length ∧
        z2.getD o 0 = z.getD o 0 + r * (n * dt) ∧
        b2.getD o 0 = b.getD o 0 + r * (n * dt) ∧
        (SNiter dt n (⟨t0, o, some r, none⟩, g)).1
          = ⟨t0 + n * dt, o, some r, none⟩
  | 0, t0, g, z, b, hz, ho, hb, hbl => by
      refine ⟨z, b, hz, hb, rfl, rfl, ?_, ?_, ?_⟩ <;> simp [SNiter]
  | n + 1, t0, g, z, b, hz, ho, hb, hbl => by
      have hob : o < b.length := hbl ▸ ho
      have hstep := SN_rate_step_wb ⟨t0, o, some r, none⟩ g dt z b r rfl rfl
        hz ho hb hob
      have hsnd := congrArg Prod.snd hstep
      have hrec : SNiter dt (n + 1) (⟨t0, o, some r, none⟩, g)
          = SNiter dt n ((SingleNodeBaselevelHandler.run_one_step
              ⟨t0, o, some r, none⟩ g dt).2) := rfl
      set z1 := z.set o (z.getD o 0 + r * dt) with hz1
      set b1 := b.set o (b.getD o 0 + r * dt) with hb1d
      set g1 := (g.setF topoName z1).setF bedrockName b1 with hg1
      have hlenz1 : z1.length = z.length := List.length_set z o _
      have hlenb1 : b1.length = b.length := List.length_set b o _
      have hz1l : lookupF topoName g1.at_node = some z1 := by
        rw [hg1]
        exact (lookupF_setF_ne _ topoName bedrockName b1
          (fun hh => bedrock_ne_topo hh.symm)).trans
          (lookupF_setF_self g topoName z1)
      have hb1l : lookupF bedrockName g1.at_node = some b1 :=
        lookupF_setF_self _ bedrockName b1
      obtain ⟨z2, b2, hz2, hb2, hlz2, hlb2, hvz2, hvb2, hh2⟩ :=
        SN_rate_iter_wb o r dt n (t0 + dt) g1 z1 b1 hz1l (hlenz1 ▸ ho) hb1l
          (by rw [hlenz1, hlenb1, hbl])
      refine ⟨z2, b2, ?_, ?_, ?_, ?_, ?_, ?_, ?_⟩
      · rw [hrec, hsnd]; exact hz2
      · rw [hrec, hsnd]; exact hb2
      · exact hlz2.trans hlenz1
      · exact hlb2.trans hlenb1
      · rw [hvz2, hz1, getD_set_self z o _ ho]
        push_cast
        ring
      · rw [hvb2, hb1d, getD_set_self b o _ hob]
        push_cast
        ring
      · rw [hrec, hsnd,
          show (t0 : ℚ) + ((n + 1 : ℕ) : ℚ) * dt = t0 + dt + n * dt from by
            push_cast; ring]
        exact hh2

/-- C3: single-node constant-rate mode.  After `n` steps of `dt` (total
advanced time `n * dt`) the outlet elevation equals its initial value plus
`rate * (n * dt)` exactly, and if the bedrock field exists it receives the
identical total delta. -/
theorem C3_constant_rate_accumulation (g : Grid) (o : ℕ) (r dt : ℚ) (n : ℕ)
    (z : List ℚ) (hz : lookupF topoName g.at_node = some z)
    (ho : o < z.length)
    (hb : lookupF bedrockName g.at_node = none ∨
      ∃ b, lookupF bedrockName g.at_node = some b ∧ b.length = z.length) :
    zAt (SNiter dt n (⟨0, o, some r, none⟩, g)).2 o = zAt g o + r * (n * dt) ∧
    ∀ b, lookupF bedrockName g.at_node = some b →
      bAt (SNiter dt n (⟨0, o, some r, none⟩, g)).2 o
        = bAt g o + r * (n * dt) := by
  cases hb with
  | inl hbn =>
    obtain ⟨z2, hz2, hlen2, hval2, hh2⟩ :=
      SN_rate_iter_nb o r dt n 0 g z hz ho hbn
    constructor
    · rw [zAt, zAt, hz, hz2]
      simpa using hval2
    · intro b hbx
      rw [hbn] at hbx
      exact absurd hbx (by simp)
  | inr hbs =>
    obtain ⟨b, hbx, hbl⟩ := hbs
    obtain ⟨z2, b2, hz2, hb2, hlz2, hlb2, hvz2, hvb2, hh2⟩ :=
      SN_rate_iter_wb o r dt n 0 g z b hz ho hbx hbl
    constructor
    · rw [zAt, zAt, hz, hz2]
      simpa using hvz2
    · intro b0 hb0
      have hbb : b0 = b := by
        rw [hbx] at hb0
        exact (Option.some_inj.mp hb0).symm
      subst hbb
      rw [bAt, bAt, hbx, hb2]
      simpa using hvb2

/-- Grid for the C3 witness: one node, elevation 1, bedrock 0 (as in the
repository's own test). -/
def gW : Grid := ⟨[0], [(topoName, [1]), (bedrockName, [0])]⟩

/-- C3 witness: lowering_rate = -0.1, one run_one_step(10.0) call moves the
outlet elevation (and bedrock) down by exactly 1. -/
theorem C3_constant_rate_accumulation_witness :
    zAt (SNiter 10 1 (⟨0, 0, some (-1/10), none⟩, gW)).2 0
      = zAt gW 0 + (-1/10) * ((1 : ℕ) * 10) ∧
    ∀ b, lookupF bedrockName gW.at_node = some b →
      bAt (SNiter 10 1 (⟨0, 0, some (-1/10), none⟩, gW)).2 0
        = bAt gW 0 + (-1/10) * ((1 : ℕ) * 10) :=
  C3_constant_rate_accumulation gW 0 (-1/10) 10 1 [1] (by decide)
    (by decide) (Or.inr ⟨[0], by decide, by decide⟩)

/-- With strictly increasing first components, the head time bounds the
last sample's time. -/
lemma chain_fst_le_getLast :
    ∀ (x : ℚ × ℚ) (l : List (ℚ × ℚ)) (t v : ℚ),
      List.Chain' (fun a b : ℚ × ℚ => a.1 < b.1) (x :: l) →
      (x :: l).getLast? = some (t, v) → x.1 ≤ t
  | x, [], t, v, _, hl => by
      rw [List.getLast?_singleton] at hl
      injection hl with h
      subst h
      exact le_refl _
  | x, y :: l, t, v, hch, hl => by
      rw [List.getLast?_cons_cons] at hl
      obtain ⟨hxy, hch1⟩ := List.chain'_cons.mp hch
      exact le_of_lt (lt_of_lt_of_le hxy
        (chain_fst_le_getLast y l t v hch1 hl))

/-- The interpolant evaluated at the last sample time returns the last
sample value (times strictly increasing). -/
lemma interpEval_getLast :
    ∀ (pts : List (ℚ × ℚ)) (t v : ℚ),
      List.Chain' (fun a b : ℚ × ℚ => a.1 < b.1) pts →
      pts.getLast? = some (t, v) →
      interpEval pts t = some v
  | [], t, v, _, hl => by simp at hl
  | [(t0, v0)], t, v, _, hl => by
      rw [List.getLast?_singleton] at hl
      injection hl with h
      cases h
      simp [interpEval]
  | (t0, v0) :: (t1, v1) :: rest, t, v, hch, hl => by
      rw [List.getLast?_cons_cons] at hl
      obtain ⟨h01, hch1⟩ := List.chain'_cons.mp hch
      have hle : (t1, v1).1 ≤ t := chain_fst_le_getLast (t1, v1) rest t v hch1 hl
      have hnlt : ¬ t < t0 := not_lt.mpr (le_trans (le_of_lt h01) hle)
      cases rest with
      | nil =>
        rw [List.getLast?_singleton] at hl
        injection hl with h
        cases h
        have ht01 : t1 - t0 ≠ 0 := sub_ne_zero.mpr (ne_of_gt h01)
        simp only [interpEval, if_neg hnlt, if_pos (le_refl t1),
          Option.some.injEq]
        rw [mul_div_assoc, div_self ht01]
        ring
      | cons y rest2 =>
        obtain ⟨h12, hch2⟩ := List.chain'_cons.mp hch1
        rw [List.getLast?_cons_cons] at hl
        have hyle : y.1 ≤ t := chain_fst_le_getLast y rest2 t v hch2 hl
        have ht1 : (t1, v1).1 < t := lt_of_lt_of_le h12 hyle
        have hngt : ¬ t ≤ t1 := not_le.mpr ht1
        simp only [interpEval, if_neg hnlt, if_neg hngt]
        exact interpEval_getLast ((t1, v1) :: y :: rest2) t v hch1
          (by rw [List.getLast?_cons_cons]; exact hl)

/-- Scaling factor the single-node constructor computes in file mode with
a target end elevation: `|start − e| / |change[0] − change[-1]|`. -/
def snScale (table : List (ℚ × ℚ)) (start e : ℚ) : ℚ :=
  |start - e| /
    |(table.map (fun x => x.2)).getD 0 0 -
      (table.map (fun x => x.2)).getD ((table.map (fun x => x.2)).length - 1) 0|

/-- Interpolation samples the single-node constructor stores in file mode
with a target end elevation: `time.zip (scale * change + start)`. -/
def snFilePts (table : List (ℚ × ℚ)) (start e : ℚ) : List (ℚ × ℚ) :=
  (table.map (fun x => x.1)).zip ((table.map (fun x => x.2)).map
    (fun ch => snScale table start e * ch + start))

lemma snFilePts_eq_map (table : List (ℚ × ℚ)) (start e : ℚ) :
    snFilePts table start e =
      table.map (fun x => (x.1, snScale table start e * x.2 + start)) := by
  rw [snFilePts, List.map_map, List.zip_map']
  rfl

lemma snFilePts_getLast (table : List (ℚ × ℚ)) (start e : ℚ)
    (hne : table ≠ []) :
    (snFilePts table start e).getLast? =
      some ((table.getLast hne).1,
        snScale table start e * (table.getLast hne).2 + start) := by
  rw [snFilePts_eq_map, List.getLast?_map, List.getLast?_eq_getLast _ hne]
  rfl

lemma snFilePts_chain (table : List (ℚ × ℚ)) (start e : ℚ)
    (hch : List.Chain' (fun a b : ℚ × ℚ => a.1 < b.1) table) :
    List.Chain' (fun a b : ℚ × ℚ => a.1 < b.1)
      (snFilePts table start e) := by
  rw [snFilePts_eq_map, List.chain'_map]
  exact hch

/-- C5 (amended): in file mode with `model_end_elevation = E`, the
single-node constructor stores the scaling factor
`|start_elevation − E| / |change[0] − change[last]|`; and — provided
`change[0] = 0` and `E − start_elevation` is a nonnegative multiple of
`change[last] ≠ 0` — the outlet elevation equals `E` after the step whose
PRE-increment elapsed time is the history's final time (one step after
elapsed time first reaches that final time, not upon reaching it). -/
theorem C5_scaling_and_final_elevation (fs : String → Option (List (ℚ × ℚ)))
    (g : Grid) (o : ℕ) (p : String) (e : ℚ) (z : List ℚ)
    (table : List (ℚ × ℚ)) (c : ℚ)
    (hz : lookupF topoName g.at_node = some z) (ho : o < z.length)
    (hfs : fs p = some table) (hlen : 2 ≤ table.length) (hne : table ≠ [])
    (hch : List.Chain' (fun a b : ℚ × ℚ => a.1 < b.1) table)
    (hc0 : (table.map (fun x => x.2)).getD 0 0 = 0)
    (hcl : (table.getLast hne).2 ≠ 0) (hcge : 0 ≤ c)
    (he : e - z.getD o 0 = c * (table.getLast hne).2)
    (g2 : Grid) (dt : ℚ) (h' : SingleNodeBaselevelHandler) (g' : Grid)
    (hrun : SingleNodeBaselevelHandler.run_one_step
        ⟨(table.getLast hne).1, o, none,
          some (snFilePts table (z.getD o 0) e)⟩ g2 dt = (none, h', g')) :
    SingleNodeBaselevelHandler.init fs g o none (some p) (some e)
      = .ok ⟨0, o, none, some (snFilePts table (z.getD o 0) e)⟩ ∧
    zAt g' o = e := by
  constructor
  · simp only [SingleNodeBaselevelHandler.init, hz, hfs, if_pos ho,
      if_neg hne, if_neg (not_lt.mpr hlen), snFilePts, snScale]
  · set start := z.getD o 0 with hstart
    have hclD : (table.map (fun x => x.2)).getD
        ((table.map (fun x => x.2)).length - 1) 0 = (table.getLast hne).2 := by
      have hne2 : table.map (fun x => x.2) ≠ [] := by simp [hne]
      have hpos : 0 < (table.map (fun x => x.2)).length := by
        simp [List.length_map]
        exact List.length_pos.mpr hne
      rw [List.getD_eq_getElem _ _ (Nat.sub_lt hpos Nat.one_pos)]
      rw [← List.getLast_eq_getElem _ hne2, List.getLast_map]
    have habs : |(table.getLast hne).2| ≠ 0 := abs_ne_zero.mpr hcl
    have hsc : snScale table start e = c := by
      rw [snScale, hc0, hclD, zero_sub, abs_neg]
      have : |start - e| = c * |(table.getLast hne).2| := by
        rw [abs_sub_comm, he, abs_mul, abs_of_nonneg hcge]
      rw [this, mul_div_assoc, div_self habs, mul_one]
    obtain ⟨-, hv⟩ := SN_hist_run_inv _ g2 dt
      (snFilePts table start e) h' g' rfl hrun
    have hlast := interpEval_getLast (snFilePts table start e)
      (table.getLast hne).1 (snScale table start e * (table.getLast hne).2
        + start) (snFilePts_chain table start e hch)
      (snFilePts_getLast table start e hne)
    have : some (snScale table start e * (table.getLast hne).2 + start)
        = some (zAt g' o) := by
      rw [← hlast]
      exact hv
    have hzv := Option.some_inj.mp this
    rw [← hzv, hsc]
    linarith [he]

/-- Grid after the C5 witness step: the one-node elevation sits at -1. -/
def gC5W : Grid := ⟨[0], [(topoName, [-1])]⟩

/-- C5 witness: history (0,0)-(10,-1), start elevation 0, end target -1;
the constructor stores scaling 1, and the step taken from elapsed time 10
(the final history time) lands the outlet exactly on -1. -/
theorem C5_scaling_and_final_elevation_witness :
    SingleNodeBaselevelHandler.init fsB g4 0 none (some "f") (some (-1))
      = .ok ⟨0, 0, none, some (snFilePts [(0, 0), (10, -1)]
          (([0] : List ℚ).getD 0 0) (-1))⟩ ∧
    zAt gC5W 0 = -1 :=
  C5_scaling_and_final_elevation fsB g4 0 "f" (-1) [0] [(0, 0), (10, -1)] 1
    (by decide) (by decide) (by decide) (by decide) (by decide)
    (by simp [List.chain'_cons])
    (by decide)
    (by norm_num [List.getLast])
    (by norm_num)
    (by norm_num [List.getLast])
    g4 5 ⟨15, 0, none, some (snFilePts [(0, 0), (10, -1)]
      (([0] : List ℚ).getD 0 0) (-1))⟩ gC5W
    (by
      simp [SingleNodeBaselevelHandler.run_one_step, snFilePts, snScale,
        g4, gC5W, lookupF, topoName, bedrockName, interpEval, Grid.setF,
        setAssoc, List.getLast]
      norm_num)

lemma topo_ne_bedrock : topoName ≠ bedrockName := by decide

/-- Field values after writing topography then bedrock. -/
lemma atF_setF_tb (g : Grid) (zz bb : List ℚ) (i : ℕ) :
    zAt ((g.setF topoName zz).setF bedrockName bb) i = zz.getD i 0 ∧
    bAt ((g.setF topoName zz).setF bedrockName bb) i = bb.getD i 0 := by
  constructor
  · simp only [zAt,
      lookupF_setF_ne (g.setF topoName zz) topoName bedrockName bb
        topo_ne_bedrock,
      lookupF_setF_self, Option.getD_some]
  · simp only [bAt, lookupF_setF_self, Option.getD_some]

/-- Field values after writing bedrock then topography. -/
lemma atF_setF_bt (g : Grid) (bb zz : List ℚ) (i : ℕ) :
    zAt ((g.setF bedrockName bb).setF topoName zz) i = zz.getD i 0 ∧
    bAt ((g.setF bedrockName bb).setF topoName zz) i = bb.getD i 0 := by
  constructor
  · simp only [zAt, lookupF_setF_self, Option.getD_some]
  · simp only [bAt,
      lookupF_setF_ne (g.setF bedrockName bb) bedrockName topoName zz
        bedrock_ne_topo,
      lookupF_setF_self, Option.getD_some]

/-- Characterisation of a single-node history step, bedrock present. -/
lemma SN_hist_step_wb (h : SingleNodeBaselevelHandler) (g : Grid) (dt : ℚ)
    (z b : List ℚ) (pts : List (ℚ × ℚ)) (fv : ℚ)
    (hobj : h.outlet_elevation_obj = some pts)
    (hz : lookupF topoName g.at_node = some z) (ho : h.outlet_node < z.length)
    (hiv : interpEval pts h.model_time = some fv)
    (hb : lookupF bedrockName g.at_node = some b)
    (hob : h.outlet_node < b.length) :
    h.run_one_step g dt =
      (none, { h with model_time := h.model_time + dt },
        (g.setF bedrockName
          (b.set h.outlet_node
            (b.getD h.outlet_node 0 - (z.getD h.outlet_node 0 - fv)))).setF
          topoName
            (z.set h.outlet_node
              (z.getD h.outlet_node 0 - (z.getD h.outlet_node 0 - fv)))) := by
  simp only [SingleNodeBaselevelHandler.run_one_step, hz, hobj, if_pos ho,
    hiv, hb, if_pos hob]

/-- Entry `i` of the masked history update
`arr[mask] -= prefactor * (z[mask] - fv)`. -/
lemma maskedHistUpdate_getD (pf fv : ℚ) :
    ∀ (a zr : List ℚ) (m : List Bool) (i : ℕ),
      a.length = zr.length → m.length = zr.length →
      (maskedHistUpdate pf fv (a.zip (zr.zip m))).getD i 0 =
        if m.getD i false then a.getD i 0 - pf * (zr.getD i 0 - fv)
        else a.getD i 0
  | [], zr, m, i, ha, hm => by
      have hzr : zr = [] := List.length_eq_zero.mp ha.symm
      subst hzr
      have hm0 : m = [] := List.length_eq_zero.mp hm
      subst hm0
      simp [maskedHistUpdate]
  | a :: as, zr, m, i, ha, hm => by
      cases zr with
      | nil => simp at ha
      | cons zh zt =>
        cases m with
        | nil => simp at hm
        | cons mh mt =>
          cases i with
          | zero => simp [maskedHistUpdate]
          | succ j =>
            have ha2 : as.length = zt.length := by simpa using ha
            have hm2 : mt.length = zt.length := by simpa using hm
            simpa [maskedHistUpdate] using
              maskedHistUpdate_getD pf fv as zt mt j ha2 hm2

/-- Characterisation of a multi-node history step, bedrock present. -/
lemma CN_hist_step_wb (h : ClosedNodeBaselevelHandler) (g : Grid) (dt : ℚ)
    (pts : List (ℚ × ℚ)) (z b : List ℚ) (fv : ℚ)
    (hobj : h.outlet_elevation_obj = some pts)
    (hz : lookupF topoName g.at_node = some z)
    (hlz : z.length = h.nodes_to_lower.length)
    (hiv : interpEval pts (h.model_time + dt) = some fv)
    (hb : lookupF bedrockName g.at_node = some b)
    (hlb : b.length = h.nodes_to_lower.length) :
    h.run_one_step g dt =
      (none, { h with model_time := h.model_time + dt },
        (g.setF bedrockName
          (maskedHistUpdate h.prefactor fv
            (b.zip (z.zip h.nodes_to_lower)))).setF topoName
              (maskedHistUpdate h.prefactor fv
                (z.zip (z.zip h.nodes_to_lower)))) := by
  simp only [ClosedNodeBaselevelHandler.run_one_step, hobj, hz, if_pos hlz,
    hiv, hb, if_pos hlb]

/-- C8: every step of either controller, in both modes, changes bedrock
(when the field exists, with matching reach) and elevation by the same
delta at each target node — indeed at every node — so the per-node
difference elevation − bedrock is unchanged by every call (also by the
calls that raise, which leave both fields untouched). -/
theorem C8_bedrock_tracks_elevation :
    (∀ (h : SingleNodeBaselevelHandler) (g : Grid) (dt : ℚ) (z b : List ℚ),
      lookupF topoName g.at_node = some z →
      lookupF bedrockName g.at_node = some b → b.length = z.length →
      zAt (h.run_one_step g dt).2.2 h.outlet_node
          - bAt (h.run_one_step g dt).2.2 h.outlet_node
        = zAt g h.outlet_node - bAt g h.outlet_node) ∧
    (∀ (h : ClosedNodeBaselevelHandler) (g : Grid) (dt : ℚ) (z b : List ℚ)
        (i : ℕ),
      lookupF topoName g.at_node = some z →
      lookupF bedrockName g.at_node = some b → b.length = z.length →
      zAt (h.run_one_step g dt).2.2 i - bAt (h.run_one_step g dt).2.2 i
        = zAt g i - bAt g i) := by
  constructor
  · intro h g dt z b hz hb hbl
    cases hobj : h.outlet_elevation_obj with
    | none =>
      cases hr : h.lowering_rate with
      | none =>
        simp [SingleNodeBaselevelHandler.run_one_step, hz, hobj, hr]
      | some r =>
        by_cases ho : h.outlet_node < z.length
        · have hob : h.outlet_node < b.length := hbl ▸ ho
          have hb1 : lookupF bedrockName
              (g.setF topoName
                (z.set h.outlet_node
                  (z.getD h.outlet_node 0 + r * dt))).at_node = some b :=
            (lookupF_setF_ne g bedrockName topoName _ bedrock_ne_topo).trans hb
          rw [SN_rate_step_wb h g dt z b r hobj hr hz ho hb hob]
          rw [(atF_setF_tb g _ _ h.outlet_node).1,
            (atF_setF_tb g _ _ h.outlet_node).2]
          simp only [zAt, bAt, hz, hb, Option.getD_some]
          rw [getD_set_self z _ _ ho, getD_set_self b _ _ hob]
          ring
        · simp [SingleNodeBaselevelHandler.run_one_step, hz, hobj, hr,
            if_neg ho]
    | some pts =>
      by_cases ho : h.outlet_node < z.length
      · cases hiv : interpEval pts h.model_time with
        | none =>
          simp [SingleNodeBaselevelHandler.run_one_step, hz, hobj,
            if_pos ho, hiv]
        | some fv =>
          have hob : h.outlet_node < b.length := hbl ▸ ho
          rw [SN_hist_step_wb h g dt z b pts fv hobj hz ho hiv hb hob]
          rw [(atF_setF_bt g _ _ h.outlet_node).1,
            (atF_setF_bt g _ _ h.outlet_node).2]
          simp only [zAt, bAt, hz, hb, Option.getD_some]
          rw [getD_set_self z _ _ ho, getD_set_self b _ _ hob]
          ring
      · simp [SingleNodeBaselevelHandler.run_one_step, hz, hobj, if_neg ho]
  · intro h g dt z b i hz hb hbl
    cases hobj : h.outlet_elevation_obj with
    | none => simp [ClosedNodeBaselevelHandler.run_one_step, hobj]
    | some pts =>
      by_cases hlz : z.length = h.nodes_to_lower.length
      · cases hiv : interpEval pts (h.model_time + dt) with
        | none =>
          simp [ClosedNodeBaselevelHandler.run_one_step, hobj, hz,
            if_pos hlz, hiv]
        | some fv =>
          have hlb : b.length = h.nodes_to_lower.length := hbl.trans hlz
          rw [CN_hist_step_wb h g dt pts z b fv hobj hz hlz hiv hb hlb]
          rw [(atF_setF_bt g _ _ i).1, (atF_setF_bt g _ _ i).2]
          rw [maskedHistUpdate_getD h.prefactor fv z z h.nodes_to_lower i rfl
            hlz.symm]
          rw [maskedHistUpdate_getD h.prefactor fv b z h.nodes_to_lower i hbl
            hlz.symm]
          simp only [zAt, bAt, hz, hb, Option.getD_some]
          by_cases hm : h.nodes_to_lower.getD i false = true
          · rw [if_pos hm, if_pos hm]
            ring
          · rw [if_neg hm, if_neg hm]
      · simp [ClosedNodeBaselevelHandler.run_one_step, hobj, hz, if_neg hlz]

/-- The 5×5 all-perimeter-closed grid with elevation and bedrock zero. -/
def gWB : Grid :=
  ⟨statusC1, [(topoName, List.replicate 25 0),
    (bedrockName, List.replicate 25 0)]⟩

/-- C8 witness: a single-node constant-rate step on the one-node grid with
bedrock, and a multi-node step on the closed-perimeter grid with bedrock. -/
theorem C8_bedrock_tracks_elevation_witness :
    zAt ((SingleNodeBaselevelHandler.mk 0 0 (some (-1/10))
            none).run_one_step gW 10).2.2 0
        - bAt ((SingleNodeBaselevelHandler.mk 0 0 (some (-1/10))
            none).run_one_step gW 10).2.2 0
      = zAt gW 0 - bAt gW 0 ∧
    zAt (hC1.run_one_step gWB 10).2.2 5 - bAt (hC1.run_one_step gWB 10).2.2 5
      = zAt gWB 5 - bAt gWB 5 :=
  ⟨C8_bedrock_tracks_elevation.1 (SingleNodeBaselevelHandler.mk 0 0
      (some (-1/10)) none) gW 10 [1] [0] (by decide) (by decide) (by decide),
   C8_bedrock_tracks_elevation.2 hC1 gWB 10 (List.replicate 25 0)
      (List.replicate 25 0) 5 (by decide) (by decide) (by decide)⟩

lemma atF_setF_t (g : Grid) (zz : List ℚ) (i : ℕ) :
    zAt (g.setF topoName zz) i = zz.getD i 0 := by
  simp only [zAt, lookupF_setF_self, Option.getD_some]

/-- Characterisation of a single-node history step, bedrock absent. -/
lemma SN_hist_step_nb (h : SingleNodeBaselevelHandler) (g : Grid) (dt : ℚ)
    (z : List ℚ) (pts : List (ℚ × ℚ)) (fv : ℚ)
    (hobj : h.outlet_elevation_obj = some pts)
    (hz : lookupF topoName g.at_node = some z) (ho : h.outlet_node < z.length)
    (hiv : interpEval pts h.model_time = some fv)
    (hb : lookupF bedrockName g.at_node = none) :
    h.run_one_step g dt =
      (none, { h with model_time := h.model_time + dt },
        g.setF topoName
          (z.set h.outlet_node
            (z.getD h.outlet_node 0 - (z.getD h.outlet_node 0 - fv)))) := by
  simp only [SingleNodeBaselevelHandler.run_one_step, hz, hobj, if_pos ho,
    hiv, hb]

/-- C9: both constructors start `model_time` at 0.  The single-node step
increments `model_time` only at the end (a completed call has advanced by
exactly `dt`, and its history-mode delta was evaluated at the
pre-increment elapsed time).  The multi-node step increments `model_time`
first (every call — even one that raises — has advanced by exactly `dt`,
and its history-mode delta is evaluated at the post-increment elapsed
time). -/
theorem C9_elapsed_time_ordering :
    (∀ (fs : String → Option (List (ℚ × ℚ))) (g : Grid) (o : ℕ)
        (r : Option ℚ) (p : Option String) (e : Option ℚ)
        (hh : SingleNodeBaselevelHandler),
      SingleNodeBaselevelHandler.init fs g o r p e = .ok hh →
      hh.model_time = 0) ∧
    (∀ (fs : String → Option (List (ℚ × ℚ))) (g : Grid) (m : Bool)
        (r : Option ℚ) (p : Option String) (e : Option ℚ)
        (hh : ClosedNodeBaselevelHandler),
      ClosedNodeBaselevelHandler.init fs g m r p e = .ok hh →
      hh.model_time = 0) ∧
    (∀ (h : SingleNodeBaselevelHandler) (g : Grid) (dt : ℚ),
      (h.run_one_step g dt).1 = none →
      (h.run_one_step g dt).2.1.model_time = h.model_time + dt) ∧
    (∀ (h : SingleNodeBaselevelHandler) (g : Grid) (dt : ℚ)
        (pts : List (ℚ × ℚ)) (h2 : SingleNodeBaselevelHandler) (g2 : Grid),
      h.outlet_elevation_obj = some pts →
      h.run_one_step g dt = (none, h2, g2) →
      interpEval pts h.model_time = some (zAt g2 h.outlet_node)) ∧
    (∀ (h : ClosedNodeBaselevelHandler) (g : Grid) (dt : ℚ),
      (h.run_one_step g dt).2.1.model_time = h.model_time + dt) ∧
    (∀ (h : ClosedNodeBaselevelHandler) (g : Grid) (dt : ℚ)
        (pts : List (ℚ × ℚ)) (h2 : ClosedNodeBaselevelHandler) (g2 : Grid)
        (i : ℕ),
      h.outlet_elevation_obj = some pts →
      h.run_one_step g dt = (none, h2, g2) →
      h.nodes_to_lower.getD i false = true →
      ∃ fv, interpEval pts (h.model_time + dt) = some fv ∧
        zAt g2 i = zAt g i - h.prefactor * (zAt g i - fv)) := by
  refine ⟨?_, ?_, ?_, ?_, ?_, ?_⟩
  · intro fs g o r p e hh hinit
    simp only [SingleNodeBaselevelHandler.init] at hinit
    repeat' split at hinit
    all_goals first
      | (injection hinit with hival; subst hival; rfl)
      | exact Except.noConfusion hinit
  · intro fs g m r p e hh hinit
    simp only [ClosedNodeBaselevelHandler.init] at hinit
    repeat' split at hinit
    all_goals first
      | (injection hinit with hival; subst hival; rfl)
      | exact Except.noConfusion hinit
  · intro h g dt hnone
    cases hz : lookupF topoName g.at_node with
    | none => simp [SingleNodeBaselevelHandler.run_one_step, hz] at hnone
    | some z =>
      cases hobj : h.outlet_elevation_obj with
      | none =>
        cases hr : h.lowering_rate with
        | none =>
          simp [SingleNodeBaselevelHandler.run_one_step, hz, hobj, hr]
            at hnone
        | some r =>
          by_cases ho : h.outlet_node < z.length
          · cases hb : lookupF bedrockName g.at_node with
            | none =>
              rw [SN_rate_step_nb h g dt z r hobj hr hz ho hb]
            | some b =>
              by_cases hob : h.outlet_node < b.length
              · rw [SN_rate_step_wb h g dt z b r hobj hr hz ho hb hob]
              · have hb1 : lookupF bedrockName
                    (g.setF topoName (z.set h.outlet_node
                      (z.getD h.outlet_node 0 + r * dt))).at_node = some b :=
                  (lookupF_setF_ne g bedrockName topoName _
                    bedrock_ne_topo).trans hb
                simp only [SingleNodeBaselevelHandler.run_one_step, hz,
                  hobj, hr, if_pos ho, hb1, if_neg hob] at hnone
                exact Option.noConfusion hnone
          · simp [SingleNodeBaselevelHandler.run_one_step, hz, hobj, hr,
              if_neg ho] at hnone
      | some pts =>
        by_cases ho : h.outlet_node < z.length
        · cases hiv : interpEval pts h.model_time with
          | none =>
            simp [SingleNodeBaselevelHandler.run_one_step, hz, hobj,
              if_pos ho, hiv] at hnone
          | some fv =>
            cases hb : lookupF bedrockName g.at_node with
            | none =>
              rw [SN_hist_step_nb h g dt z pts fv hobj hz ho hiv hb]
            | some b =>
              by_cases hob : h.outlet_node < b.length
              · rw [SN_hist_step_wb h g dt z b pts fv hobj hz ho hiv hb hob]
              · simp [SingleNodeBaselevelHandler.run_one_step, hz, hobj,
                  if_pos ho, hiv, hb, if_neg hob] at hnone
        · simp [SingleNodeBaselevelHandler.run_one_step, hz, hobj,
            if_neg ho] at hnone
  · intro h g dt pts h2 g2 hobj hrun
    exact (SN_hist_run_inv h g dt pts h2 g2 hobj hrun).2
  · intro h g dt
    cases hobj : h.outlet_elevation_obj with
    | none => simp [ClosedNodeBaselevelHandler.run_one_step, hobj]
    | some pts =>
      cases hz : lookupF topoName g.at_node with
      | none => simp [ClosedNodeBaselevelHandler.run_one_step, hobj, hz]
      | some z =>
        by_cases hlz : z.length = h.nodes_to_lower.length
        · cases hiv : interpEval pts (h.model_time + dt) with
          | none =>
            simp [ClosedNodeBaselevelHandler.run_one_step, hobj, hz,
              if_pos hlz, hiv]
          | some fv =>
            cases hb : lookupF bedrockName g.at_node with
            | none =>
              simp [ClosedNodeBaselevelHandler.run_one_step, hobj, hz,
                if_pos hlz, hiv, hb]
            | some b =>
              by_cases hlb : b.length = h.nodes_to_lower.length
              · simp [ClosedNodeBaselevelHandler.run_one_step, hobj, hz,
                  if_pos hlz, hiv, hb, if_pos hlb]
              · simp [ClosedNodeBaselevelHandler.run_one_step, hobj, hz,
                  if_pos hlz, hiv, hb, if_neg hlb]
        · simp [ClosedNodeBaselevelHandler.run_one_step, hobj, hz,
            if_neg hlz]
  · intro h g dt pts h2 g2 i hobj hrun hmask
    cases hz : lookupF topoName g.at_node with
    | none =>
      simp [ClosedNodeBaselevelHandler.run_one_step, hobj, hz] at hrun
    | some z =>
      by_cases hlz : z.length = h.nodes_to_lower.length
      · cases hiv : interpEval pts (h.model_time + dt) with
        | none =>
          simp [ClosedNodeBaselevelHandler.run_one_step, hobj, hz,
            if_pos hlz, hiv] at hrun
        | some fv =>
          refine ⟨fv, rfl, ?_⟩
          cases hb : lookupF bedrockName g.at_node with
          | none =>
            simp only [ClosedNodeBaselevelHandler.run_one_step, hobj, hz,
              if_pos hlz, hiv, hb] at hrun
            injection hrun with h1 h23
            injection h23 with hh hg
            subst hg
            rw [atF_setF_t]
            rw [maskedHistUpdate_getD h.prefactor fv z z h.nodes_to_lower i
              rfl hlz.symm]
            rw [if_pos hmask]
            simp only [zAt, hz, Option.getD_some]
          | some b =>
            by_cases hlb : b.length = h.nodes_to_lower.length
            · simp only [ClosedNodeBaselevelHandler.run_one_step, hobj, hz,
                if_pos hlz, hiv, hb, if_pos hlb] at hrun
              injection hrun with h1 h23
              injection h23 with hh hg
              subst hg
              rw [(atF_setF_bt g _ _ i).1]
              rw [maskedHistUpdate_getD h.prefactor fv z z h.nodes_to_lower i
                rfl hlz.symm]
              rw [if_pos hmask]
              simp only [zAt, hz, Option.getD_some]
            · simp [ClosedNodeBaselevelHandler.run_one_step, hobj, hz,
                if_pos hlz, hiv, hb, if_neg hlb] at hrun
      · simp [ClosedNodeBaselevelHandler.run_one_step, hobj, hz,
          if_neg hlz] at hrun

/-- Multi-node history handler for the C9 witness. -/
def hCN9 : ClosedNodeBaselevelHandler :=
  ⟨0, true, statusC1.map (fun s => decide (s ≠ 0)), 1, none,
    some [(0, 0), (20, -2)]⟩

/-- Grid after the C9 witness multi-node step: perimeter nodes at -1. -/
def gC9 : Grid := ⟨statusC1, [(topoName,
  [-1, -1, -1, -1, -1,
   -1, 0, 0, 0, -1,
   -1, 0, 0, 0, -1,
   -1, 0, 0, 0, -1,
   -1, -1, -1, -1, -1])]⟩

/-- C9 witness: concrete constructions and steps for every conjunct. -/
theorem C9_elapsed_time_ordering_witness :
    (SingleNodeBaselevelHandler.mk 0 0 (some (-1/10)) none).model_time = 0 ∧
    hC1.model_time = 0 ∧
    ((SingleNodeBaselevelHandler.mk 0 0 (some (-1/10))
        none).run_one_step g0 10).2.1.model_time
      = (SingleNodeBaselevelHandler.mk 0 0 (some (-1/10))
          none).model_time + 10 ∧
    interpEval [(0, 0), (20, -2)] h4.model_time
      = some (zAt g4 h4.outlet_node) ∧
    (hC1.run_one_step gC1 10).2.1.model_time = hC1.model_time + 10 ∧
    (∃ fv, interpEval [(0, 0), (20, -2)] (hCN9.model_time + 10) = some fv ∧
      zAt gC9 0 = zAt gC1 0 - hCN9.prefactor * (zAt gC1 0 - fv)) :=
  ⟨C9_elapsed_time_ordering.1 fsNone g0 0 (some (-1/10)) none none
      (SingleNodeBaselevelHandler.mk 0 0 (some (-1/10)) none) rfl,
   C9_elapsed_time_ordering.2.1 fsNone gC1 true (some (-1/10)) none none
      hC1 rfl,
   C9_elapsed_time_ordering.2.2.1 (SingleNodeBaselevelHandler.mk 0 0
      (some (-1/10)) none) g0 10 rfl,
   C9_elapsed_time_ordering.2.2.2.1 h4 g4 10 [(0, 0), (20, -2)]
      ⟨10, 0, none, some [(0, 0), (20, -2)]⟩ g4 rfl
      (by simp [SingleNodeBaselevelHandler.run_one_step, h4, g4, interpEval,
        Grid.setF, setAssoc, lookupF, topoName, bedrockName]),
   C9_elapsed_time_ordering.2.2.2.2.1 hC1 gC1 10,
   C9_elapsed_time_ordering.2.2.2.2.2 hCN9 gC1 10 [(0, 0), (20, -2)]
      ⟨10, true, statusC1.map (fun s => decide (s ≠ 0)), 1, none,
        some [(0, 0), (20, -2)]⟩ gC9 0 rfl
      (by
        simp [ClosedNodeBaselevelHandler.run_one_step, hCN9, gC1, gC9,
          statusC1, interpEval, maskedHistUpdate, Grid.setF, setAssoc,
          lookupF, topoName, bedrockName]
        norm_num)
      (by decide)⟩

/-- C10: a single-node step mutates only the topographic elevation field
and (if present) the bedrock field, and only at the outlet node: the
status codes, every other named field, and the elevation and bedrock
entries of every node other than `outlet_node` are unchanged by the
call, whatever its outcome. -/
theorem C10_single_node_frame (h : SingleNodeBaselevelHandler) (g : Grid)
    (dt : ℚ) (e : Option PyErr) (h2 : SingleNodeBaselevelHandler) (g2 : Grid)
    (name : String) (i : ℕ)
    (hrun : h.run_one_step g dt = (e, h2, g2))
    (hn1 : name ≠ topoName) (hn2 : name ≠ bedrockName)
    (hi : i ≠ h.outlet_node) :
    g2.status_at_node = g.status_at_node ∧
    lookupF name g2.at_node = lookupF name g.at_node ∧
    (lookupF topoName g2.at_node).map (fun l => l[i]?)
      = (lookupF topoName g.at_node).map (fun l => l[i]?) ∧
    (lookupF bedrockName g2.at_node).map (fun l => l[i]?)
      = (lookupF bedrockName g.at_node).map (fun l => l[i]?) := by
  have hoi : h.outlet_node ≠ i := fun hh => hi hh.symm
  cases hz : lookupF topoName g.at_node with
  | none =>
    simp only [SingleNodeBaselevelHandler.run_one_step, hz] at hrun
    injection hrun with h1 h23
    injection h23 with hh hg
    subst hg
    exact ⟨rfl, rfl, by rw [hz], rfl⟩
  | some z =>
    cases hobj : h.outlet_elevation_obj with
    | none =>
      cases hr : h.lowering_rate with
      | none =>
        simp only [SingleNodeBaselevelHandler.run_one_step, hz, hobj, hr]
          at hrun
        injection hrun with h1 h23
        injection h23 with hh hg
        subst hg
        exact ⟨rfl, rfl, by rw [hz], rfl⟩
      | some r =>
        by_cases ho : h.outlet_node < z.length
        · cases hb : lookupF bedrockName g.at_node with
          | none =>
            rw [SN_rate_step_nb h g dt z r hobj hr hz ho hb] at hrun
            injection hrun with h1 h23
            injection h23 with hh hg
            subst hg
            refine ⟨rfl, lookupF_setF_ne g name topoName _ hn1, ?_, ?_⟩
            · rw [lookupF_setF_self]
              simp [List.getElem?_set_ne hoi]
            · rw [lookupF_setF_ne g bedrockName topoName _ bedrock_ne_topo,
                hb]
          | some b =>
            by_cases hob : h.outlet_node < b.length
            · rw [SN_rate_step_wb h g dt z b r hobj hr hz ho hb hob] at hrun
              injection hrun with h1 h23
              injection h23 with hh hg
              subst hg
              refine ⟨rfl,
                (lookupF_setF_ne _ name bedrockName _ hn2).trans
                  (lookupF_setF_ne g name topoName _ hn1), ?_, ?_⟩
              · rw [lookupF_setF_ne _ topoName bedrockName _ topo_ne_bedrock,
                  lookupF_setF_self]
                simp [List.getElem?_set_ne hoi]
              · rw [lookupF_setF_self]
                simp [List.getElem?_set_ne hoi]
            · have hb1 : lookupF bedrockName
                  (g.setF topoName (z.set h.outlet_node
                    (z.getD h.outlet_node 0 + r * dt))).at_node = some b :=
                (lookupF_setF_ne g bedrockName topoName _
                  bedrock_ne_topo).trans hb
              simp only [SingleNodeBaselevelHandler.run_one_step, hz, hobj,
                hr, if_pos ho, hb1, if_neg hob] at hrun
              injection hrun with h1 h23
              injection h23 with hh hg
              subst hg
              refine ⟨rfl, lookupF_setF_ne g name topoName _ hn1, ?_, ?_⟩
              · rw [lookupF_setF_self]
                simp [List.getElem?_set_ne hoi]
              · rw [lookupF_setF_ne g bedrockName topoName _
                  bedrock_ne_topo, hb]
        · simp only [SingleNodeBaselevelHandler.run_one_step, hz, hobj, hr,
            if_neg ho] at hrun
          injection hrun with h1 h23
          injection h23 with hh hg
          subst hg
          exact ⟨rfl, rfl, by rw [hz], rfl⟩
    | some pts =>
      by_cases ho : h.outlet_node < z.length
      · cases hiv : interpEval pts h.model_time with
        | none =>
          simp only [SingleNodeBaselevelHandler.run_one_step, hz, hobj,
            if_pos ho, hiv] at hrun
          injection hrun with h1 h23
          injection h23 with hh hg
          subst hg
          exact ⟨rfl, rfl, by rw [hz], rfl⟩
        | some fv =>
          cases hb : lookupF bedrockName g.at_node with
          | none =>
            rw [SN_hist_step_nb h g dt z pts fv hobj hz ho hiv hb] at hrun
            injection hrun with h1 h23
            injection h23 with hh hg
            subst hg
            refine ⟨rfl, lookupF_setF_ne g name topoName _ hn1, ?_, ?_⟩
            · rw [lookupF_setF_self]
              simp [List.getElem?_set_ne hoi]
            · rw [lookupF_setF_ne g bedrockName topoName _ bedrock_ne_topo,
                hb]
          | some b =>
            by_cases hob : h.outlet_node < b.length
            · rw [SN_hist_step_wb h g dt z b pts fv hobj hz ho hiv hb hob]
                at hrun
              injection hrun with h1 h23
              injection h23 with hh hg
              subst hg
              refine ⟨rfl,
                (lookupF_setF_ne _ name topoName _ hn1).trans
                  (lookupF_setF_ne g name bedrockName _ hn2), ?_, ?_⟩
              · rw [lookupF_setF_self]
                simp [List.getElem?_set_ne hoi]
              · rw [lookupF_setF_ne _ bedrockName topoName _
                  bedrock_ne_topo, lookupF_setF_self]
                simp [List.getElem?_set_ne hoi]
            · simp only [SingleNodeBaselevelHandler.run_one_step, hz, hobj,
                if_pos ho, hiv, hb, if_neg hob] at hrun
              injection hrun with h1 h23
              injection h23 with hh hg
              subst hg
              exact ⟨rfl, rfl, by rw [hz], by rw [hb]⟩
      · simp only [SingleNodeBaselevelHandler.run_one_step, hz, hobj,
          if_neg ho] at hrun
        injection hrun with h1 h23
        injection h23 with hh hg
        subst hg
        exact ⟨rfl, rfl, by rw [hz], rfl⟩

/-- Grid after the C10 witness step: outlet elevation 1 → 0, bedrock
0 → -1. -/
def gWafter : Grid := ⟨[0], [(topoName, [0]), (bedrockName, [-1])]⟩

/-- C10 witness: constant-rate step on the one-node bedrock grid; the
status codes, a foreign field name and the entries at node 1 are
untouched. -/
theorem C10_single_node_frame_witness :
    gWafter.status_at_node = gW.status_at_node ∧
    lookupF "water__depth" gWafter.at_node
      = lookupF "water__depth" gW.at_node ∧
    (lookupF topoName gWafter.at_node).map (fun l => l[1]?)
      = (lookupF topoName gW.at_node).map (fun l => l[1]?) ∧
    (lookupF bedrockName gWafter.at_node).map (fun l => l[1]?)
      = (lookupF bedrockName gW.at_node).map (fun l => l[1]?) :=
  C10_single_node_frame (SingleNodeBaselevelHandler.mk 0 0 (some (-1/10))
      none) gW 10 none ⟨10, 0, some (-1/10), none⟩ gWafter "water__depth" 1
    (by
      simp [SingleNodeBaselevelHandler.run_one_step, gW, gWafter, Grid.setF,
        setAssoc, lookupF, topoName, bedrockName])
    (by decide) (by decide) (by decide)

end Terrainbento
